import Mathlib

/-!
Shallow embedding of the TrojanMD/FffHs Telegram bot (src/bot.py and
src/gemini_v3.py) and verification of its specification's testable
properties.

Modelling conventions:
  * Python strings are `List Char` (written via `String.data` on literals);
    `str.lower()` is `List.map Char.toLower` (all texts involved are ASCII
    plus emoji, on which the two agree).
  * Python substring containment `a in b` is the decidable `a <:+: b`.
  * Externally visible actions (Telegram API calls, Gemini API calls, log
    lines, history-store appends) are recorded as an ordered `List Effect`,
    in the order the Python code performs them.
  * Fallible external calls are driven by explicit outcome oracles: the
    `try:` block of `check_restricted_words` can succeed, or raise inside
    `ban_chat_member`, or raise inside `reply_text`; the Gemini call can
    return text or raise any exception (a backend timeout surfaces as such
    an exception, since bot.py installs no timeout of its own).
-/

/-- Role tag of a conversation turn (the spec's `Turn.role`). -/
inductive Role where
  | user
  | model
deriving DecidableEq, Repr

/-- Externally visible actions performed while handling one message. -/
inductive Effect where
  /-- `context.bot.ban_chat_member(chat_id=..., user_id=user.id)` -/
  | banAttempt (userId : Nat)
  /-- `update.message.reply_text(text)` — outbound message to the chat. -/
  | replyText (text : List Char)
  /-- `logger.warning(text)` -/
  | logWarning (text : List Char)
  /-- `logger.error(text)` -/
  | logError (text : List Char)
  /-- `model.generate_content_async(prompt)` — the AI backend call. -/
  | geminiCall (prompt : List Char)
  /-- An append of a Turn to a per-chat history store.  bot.py never
      performs this action; the constructor exists so that its absence
      from every trace is expressible. -/
  | appendTurn (role : Role) (text : List Char)
deriving DecidableEq, Repr

/-- `RESTRICTED_WORDS = ["spam", "scam", "hate"]` (bot.py line 25). -/
def RESTRICTED_WORDS : List (List Char) :=
  List.map String.data ["spam", "scam", "hate"]

/-- Outcome of one iteration's `try:` block in `check_restricted_words`:
either both calls succeed, or `ban_chat_member` raises exception text `e`,
or the ban succeeds and `reply_text` raises exception text `e`. -/
inductive TryOutcome where
  | ok
  | banRaised (e : List Char)
  | notifyRaised (e : List Char)
deriving DecidableEq, Repr

/-- Notice text `f"🚨 User @{user.username} was removed for using restricted word: '{word}'"`. -/
def banNotice (username word : List Char) : List Char :=
  "🚨 User @".data ++ username ++
    " was removed for using restricted word: '".data ++ word ++ "'".data

/-- Log text `f"Banned user {user.id} for word: {word}"`. -/
def bannedLog (userId : Nat) (word : List Char) : List Char :=
  "Banned user ".data ++ (Nat.repr userId).data ++ " for word: ".data ++ word

/-- Log text `f"Ban failed: {str(e)}"`. -/
def banFailLog (e : List Char) : List Char :=
  "Ban failed: ".data ++ e

/-- The `for word in RESTRICTED_WORDS:` loop of `check_restricted_words`
(bot.py lines 96–112).  `oracle k` is the outcome of the k-th matched
word's `try:` block.  On `ok` the loop `break`s after logging; on either
exception the `except` logs the failure and the loop continues with the
next word (there is no `break` in the `except` branch). -/
def checkWordsLoop (oracle : Nat → TryOutcome) (userId : Nat)
    (username : List Char) (lowerText : List Char) :
    List (List Char) → Nat → List Effect
  | [], _ => []
  | w :: ws, k =>
    if w <:+: lowerText then
      match oracle k with
      | TryOutcome.ok =>
          [Effect.banAttempt userId,
           Effect.replyText (banNotice username w),
           Effect.logWarning (bannedLog userId w)]
      | TryOutcome.banRaised e =>
          Effect.banAttempt userId ::
            Effect.logError (banFailLog e) ::
            checkWordsLoop oracle userId username lowerText ws (k + 1)
      | TryOutcome.notifyRaised e =>
          Effect.banAttempt userId ::
            Effect.replyText (banNotice username w) ::
            Effect.logError (banFailLog e) ::
            checkWordsLoop oracle userId username lowerText ws (k + 1)
    else
      checkWordsLoop oracle userId username lowerText ws k

/-- `check_restricted_words` (bot.py lines 91–112): lowercases the message
text, then scans `RESTRICTED_WORDS` with the loop above. -/
def check_restricted_words (oracle : Nat → TryOutcome) (userId : Nat)
    (username text : List Char) : List Effect :=
  checkWordsLoop oracle userId username (text.map Char.toLower)
    RESTRICTED_WORDS 0

/-- Outcome of `model.generate_content_async(prompt)`: returned text, or a
raised exception with text `e` (bot.py sets no timeout, so a backend
timeout surfaces only as such an exception). -/
inductive GeminiOutcome where
  | ok (text : List Char)
  | exn (e : List Char)
deriving DecidableEq, Repr

/-- The fixed user-facing failure message of `generate_gemini_response`
(bot.py line 121) — the only failure message in bot.py. -/
def errorReply : List Char :=
  "⚠️ Sorry, I encountered an error. Please try again later.".data

/-- Log text `f"Gemini error: {str(e)}"`. -/
def geminiErrLog (e : List Char) : List Char :=
  "Gemini error: ".data ++ e

/-- `generate_gemini_response` (bot.py lines 114–121): performs the Gemini
call; on success returns its text, on any exception logs it and returns the
fixed `errorReply`.  Result: the returned reply text and the effect trace. -/
def generate_gemini_response (prompt : List Char) (outcome : GeminiOutcome) :
    List Char × List Effect :=
  match outcome with
  | GeminiOutcome.ok t => (t, [Effect.geminiCall prompt])
  | GeminiOutcome.exn e =>
      (errorReply, [Effect.geminiCall prompt, Effect.logError (geminiErrLog e)])

/-- Telegram chat type (`update.message.chat.type`). -/
inductive ChatType where
  | privateChat
  | group
  | supergroup
  | channel
deriving DecidableEq, Repr

/-- `update.message.chat.type in ["group", "supergroup"]` (bot.py line 83). -/
def isGroupChat : ChatType → Bool
  | ChatType.group => true
  | ChatType.supergroup => true
  | _ => false

/-- `handle_message` (bot.py lines 81–89): in group/supergroup chats run the
moderation check, then unconditionally call the Gemini generator on the
message text and reply with its result as one `reply_text` call. -/
def handle_message (chatType : ChatType) (text username : List Char)
    (userId : Nat) (oracle : Nat → TryOutcome) (outcome : GeminiOutcome) :
    List Effect :=
  (if isGroupChat chatType then
      check_restricted_words oracle userId username text
    else []) ++
  (generate_gemini_response text outcome).snd ++
  [Effect.replyText (generate_gemini_response text outcome).fst]

/-- Predicate: effect is a remove-member attempt. -/
def isBanEffect : Effect → Bool
  | Effect.banAttempt _ => true
  | _ => false

/-- Predicate: effect is an outbound chat message. -/
def isReplyEffect : Effect → Bool
  | Effect.replyText _ => true
  | _ => false

/-- Predicate: effect is an error-log line. -/
def isLogErrorEffect : Effect → Bool
  | Effect.logError _ => true
  | _ => false

/-- Predicate: effect is a history-store append. -/
def isAppendEffect : Effect → Bool
  | Effect.appendTurn _ _ => true
  | _ => false

/-- Predicate: effect is an AI-backend call. -/
def isGeminiEffect : Effect → Bool
  | Effect.geminiCall _ => true
  | _ => false

/-- Number of remove-member attempts in a trace. -/
def countBans (l : List Effect) : Nat := l.countP isBanEffect

/-- Number of outbound chat messages in a trace. -/
def countReplies (l : List Effect) : Nat := l.countP isReplyEffect

/-- Number of error-log lines in a trace. -/
def countLogErrors (l : List Effect) : Nat := l.countP isLogErrorEffect

/-- Number of history-store appends in a trace. -/
def countAppends (l : List Effect) : Nat := l.countP isAppendEffect

/-- Number of AI-backend calls in a trace. -/
def countGeminiCalls (l : List Effect) : Nat := l.countP isGeminiEffect

/-- The texts of the outbound chat messages of a trace, in emission order. -/
def emittedReplies (l : List Effect) : List (List Char) :=
  l.filterMap fun e =>
    match e with
    | Effect.replyText t => some t
    | _ => none

/-! Definitions for src/gemini_v3.py. -/

/-- The per-chat `context.chat_data` dict as far as gemini_v3.py uses it:
only the key `'response_mode'`, absent until first set. -/
structure ChatData where
  response_mode : Option (List Char)
deriving DecidableEq, Repr

/-- The recognized mode list `['professional', 'casual', 'creative',
'technical']` (gemini_v3.py line 153). -/
def modeList : List (List Char) :=
  List.map String.data ["professional", "casual", "creative", "technical"]

/-- The fixed zero-argument reply of `mode_command` (gemini_v3.py lines
142–149), a constant string independent of any stored mode. -/
def modeZeroArgReply : List Char :=
  ("Current response mode: Standard\n" ++
   "Available modes:\n" ++
   "/mode professional - Formal business style\n" ++
   "/mode casual - Friendly conversational\n" ++
   "/mode creative - Imaginative responses\n" ++
   "/mode technical - Detailed explanations").data

/-- `str.capitalize()`: first character uppercased, the rest lowercased. -/
def pyCapitalize : List Char → List Char
  | [] => []
  | c :: cs => Char.toUpper c :: cs.map Char.toLower

/-- Confirmation text `f"Response mode set to: {mode.capitalize()}"`. -/
def modeConfirmMsg (mode : List Char) : List Char :=
  "Response mode set to: ".data ++ pyCapitalize mode

/-- The invalid-mode reply (gemini_v3.py line 157). -/
def invalidModeMsg : List Char :=
  "Invalid mode. Choose from: professional, casual, creative, technical".data

/-- `mode_command` (gemini_v3.py lines 138–157): with no arguments, reply
with the fixed `modeZeroArgReply`; otherwise lowercase the first argument,
and either store it in `chat_data['response_mode']` and confirm, or leave
the state unchanged and reply with the invalid-mode message.  Result: the
updated chat data and the reply text. -/
def mode_command (args : List (List Char)) (cd : ChatData) :
    ChatData × List Char :=
  match args with
  | [] => (cd, modeZeroArgReply)
  | a :: _ =>
    let mode := a.map Char.toLower
    if mode ∈ modeList then
      ({ cd with response_mode := some mode }, modeConfirmMsg mode)
    else
      (cd, invalidModeMsg)

/-- The names bound at module top level in gemini_v3.py when `main` runs:
imports (lines 1–6), configuration constants (lines 12–15, 18–19, 26) and
the `async def`/`def` functions the file actually defines. -/
def gemini_v3_defined_names : List (List Char) :=
  List.map String.data
    ["os", "logging", "load_dotenv", "Update", "InputFile", "Application",
     "CommandHandler", "MessageHandler", "filters", "ContextTypes", "genai",
     "BOT_TOKEN", "GEMINI_API_KEY", "BOT_VERSION", "ADMIN_IDS", "model",
     "logger", "start", "help_command", "version_command", "mode_command",
     "admin_commands", "status_command", "main"]

/-- The handler names referenced by `main` (gemini_v3.py lines 219–228), in
the order its statements evaluate them. -/
def gemini_v3_main_handler_refs : List (List Char) :=
  List.map String.data
    ["start", "help_command", "version_command", "reset_context",
     "status_command", "mode_command", "admin_commands", "handle_message"]

/-- What `main` of gemini_v3.py can do at startup: reach the
`run_polling` receive loop, or raise `NameError` on an unbound name. -/
inductive StartupResult where
  | polling
  | nameError (n : List Char)
deriving DecidableEq, Repr

/-- `main` of gemini_v3.py (lines 214–231) as Python evaluates it: each
handler registration evaluates its handler-name expression against the
module's bound names; the first unbound one raises `NameError` and nothing
later (in particular `run_polling`) executes. -/
def gemini_v3_main : StartupResult :=
  match gemini_v3_main_handler_refs.find?
      (fun n => !(gemini_v3_defined_names.contains n)) with
  | some n => StartupResult.nameError n
  | none => StartupResult.polling

/-! Helper lemmas about the moderation loop. -/

/-- With every try-block succeeding, the loop performs exactly one ban
attempt and one notification when some word matches, and none otherwise. -/
lemma checkWordsLoop_ok_counts (userId : Nat) (username lowerText : List Char) :
    ∀ (ws : List (List Char)) (k : Nat),
      countBans (checkWordsLoop (fun _ => TryOutcome.ok) userId username lowerText ws k) =
        (if ∃ w ∈ ws, w <:+: lowerText then 1 else 0) ∧
      countReplies (checkWordsLoop (fun _ => TryOutcome.ok) userId username lowerText ws k) =
        (if ∃ w ∈ ws, w <:+: lowerText then 1 else 0) := by
  intro ws
  induction ws with
  | nil => intro k; simp [checkWordsLoop, countBans, countReplies]
  | cons w ws ih =>
    intro k
    by_cases hw : w <:+: lowerText
    · simp [checkWordsLoop, hw, countBans, countReplies, isBanEffect, isReplyEffect]
    · simp only [checkWordsLoop, if_neg hw]
      rcases ih k with ⟨ihb, ihr⟩
      rw [ihb, ihr]
      simp [hw]

/-- With every ban call failing, the loop sends no notification and logs
one error per ban attempt. -/
lemma checkWordsLoop_banRaised_counts (userId : Nat)
    (username lowerText : List Char) (exnOf : Nat → List Char) :
    ∀ (ws : List (List Char)) (k : Nat),
      countReplies (checkWordsLoop (fun j => TryOutcome.banRaised (exnOf j))
        userId username lowerText ws k) = 0 ∧
      countLogErrors (checkWordsLoop (fun j => TryOutcome.banRaised (exnOf j))
        userId username lowerText ws k) =
      countBans (checkWordsLoop (fun j => TryOutcome.banRaised (exnOf j))
        userId username lowerText ws k) := by
  intro ws
  induction ws with
  | nil => intro k; simp [checkWordsLoop, countReplies, countLogErrors, countBans]
  | cons w ws ih =>
    intro k
    by_cases hw : w <:+: lowerText
    · rcases ih (k + 1) with ⟨ihr, ihl⟩
      simp only [checkWordsLoop, if_pos hw]
      constructor
      · simp [countReplies, isReplyEffect] at ihr ⊢
        exact ihr
      · simp [countLogErrors, countBans, isLogErrorEffect, isBanEffect] at ihl ⊢
        omega
    · simpa only [checkWordsLoop, if_neg hw] using ih k

/-- The moderation loop never calls the AI backend and never appends to any
history store, whatever the oracle. -/
lemma checkWordsLoop_no_gemini_no_appends (oracle : Nat → TryOutcome)
    (userId : Nat) (username lowerText : List Char) :
    ∀ (ws : List (List Char)) (k : Nat),
      countGeminiCalls (checkWordsLoop oracle userId username lowerText ws k) = 0 ∧
      countAppends (checkWordsLoop oracle userId username lowerText ws k) = 0 := by
  intro ws
  induction ws with
  | nil => intro k; simp [checkWordsLoop, countGeminiCalls, countAppends]
  | cons w ws ih =>
    intro k
    by_cases hw : w <:+: lowerText
    · rcases h : oracle k with _ | e | e <;>
        · rcases ih (k + 1) with ⟨ihg, iha⟩
          simp only [checkWordsLoop, if_pos hw, h]
          constructor
          · simp [countGeminiCalls, isGeminiEffect] at ihg ⊢
            try exact ihg
          · simp [countAppends, isAppendEffect] at iha ⊢
            try exact iha
    · simpa only [checkWordsLoop, if_neg hw] using ih k

/-! Claim C1 — moderation performs exactly one removal attempt and one
notification per matching message. -/

/-- C1 counterexample: in a group message "spam scam" (two matching
entries) with the remove-member call failing, `check_restricted_words`
performs TWO removal attempts and ZERO notifications — the claim's
"exactly one ... even when several entries match or when the remove-member
call fails" is false on the code (the `except` branch has no `break`, and
the notification sits inside the `try` after the ban). -/
theorem c1_counterexample :
    countBans (check_restricted_words
      (fun _ => TryOutcome.banRaised "Forbidden: not enough rights".data)
      7 "bob".data "spam scam".data) = 2 ∧
    countReplies (check_restricted_words
      (fun _ => TryOutcome.banRaised "Forbidden: not enough rights".data)
      7 "bob".data "spam scam".data) = 0 := by
  decide

/-- C1 (amended): when the remove-member and notification calls succeed,
a group message whose text contains at least one denylist entry
(case-insensitively) triggers exactly one removal attempt and exactly one
notification, even when several entries match; when a remove-member call
fails, the notification for that match is skipped and each later matching
entry triggers a further removal attempt. -/
theorem c1_moderation_counts (userId : Nat) (username text : List Char)
    (h : ∃ w ∈ RESTRICTED_WORDS, w <:+: text.map Char.toLower) :
    countBans (check_restricted_words (fun _ => TryOutcome.ok)
      userId username text) = 1 ∧
    countReplies (check_restricted_words (fun _ => TryOutcome.ok)
      userId username text) = 1 := by
  rcases checkWordsLoop_ok_counts userId username (text.map Char.toLower)
    RESTRICTED_WORDS 0 with ⟨hb, hr⟩
  constructor
  · rw [check_restricted_words, hb, if_pos h]
  · rw [check_restricted_words, hr, if_pos h]

/-- C1 witness: the amended count property at the concrete message
"Buy SPAM now". -/
theorem c1_moderation_counts_witness :
    countBans (check_restricted_words (fun _ => TryOutcome.ok)
      7 "bob".data "Buy SPAM now".data) = 1 ∧
    countReplies (check_restricted_words (fun _ => TryOutcome.ok)
      7 "bob".data "Buy SPAM now".data) = 1 :=
  c1_moderation_counts 7 "bob".data "Buy SPAM now".data (by decide)

/-! Claim C8 — behaviour when the remove-member call fails. -/

/-- C8 counterexample: for the group message "spam" with the ban call
raising, the whole trace is a ban attempt followed by the error log — the
failure is caught and logged, but the notification is NOT attempted (it
sits inside the `try` block after the ban call), refuting "the
notification ... is still attempted for that match". -/
theorem c8_counterexample :
    check_restricted_words
      (fun _ => TryOutcome.banRaised "Not enough rights".data)
      7 "bob".data "spam".data =
      [Effect.banAttempt 7,
       Effect.logError (banFailLog "Not enough rights".data)] ∧
    countReplies (check_restricted_words
      (fun _ => TryOutcome.banRaised "Not enough rights".data)
      7 "bob".data "spam".data) = 0 := by
  decide

/-- C8 (amended): if the remove-member call fails for a matched denylist
entry, the failure is caught and logged (one error log per failed
attempt), but the notification is NOT attempted for that match — no
notification at all is sent when every ban call fails. -/
theorem c8_ban_failure (userId : Nat) (username text : List Char)
    (exnOf : Nat → List Char) :
    countReplies (check_restricted_words
      (fun k => TryOutcome.banRaised (exnOf k)) userId username text) = 0 ∧
    countLogErrors (check_restricted_words
      (fun k => TryOutcome.banRaised (exnOf k)) userId username text) =
    countBans (check_restricted_words
      (fun k => TryOutcome.banRaised (exnOf k)) userId username text) := by
  rw [check_restricted_words]
  exact checkWordsLoop_banRaised_counts userId username
    (text.map Char.toLower) exnOf RESTRICTED_WORDS 0

/-! Claim C2 — the "spam" group-message scenario. -/

/-- C2 counterexample: for the group message "spam" the trace of
`handle_message` contains an AI-backend call — `handle_message` calls
`generate_gemini_response` unconditionally after the moderation check, so
"the Response Generator is not invoked for that message" is false on the
code. -/
theorem c2_counterexample :
    countGeminiCalls (handle_message ChatType.group "spam".data "bob".data 7
      (fun _ => TryOutcome.ok) (GeminiOutcome.ok "Hello!".data)) = 1 ∧
    ¬ countGeminiCalls (handle_message ChatType.group "spam".data "bob".data 7
      (fun _ => TryOutcome.ok) (GeminiOutcome.ok "Hello!".data)) = 0 := by
  decide

/-- C2 (amended): for every group-chat message whose text contains "spam"
(case-insensitively), when the ban and notification calls succeed, a
removal is attempted for the sender and the notification text contains
"spam" — but the Response Generator IS still invoked for that message
(exactly one AI-backend call is made and an AI reply is produced). -/
theorem c2_spam_scenario (text username : List Char) (userId : Nat)
    (oracle : Nat → TryOutcome) (outcome : GeminiOutcome)
    (hspam : "spam".data <:+: text.map Char.toLower)
    (hok : oracle 0 = TryOutcome.ok) :
    Effect.banAttempt userId ∈
      handle_message ChatType.group text username userId oracle outcome ∧
    Effect.replyText (banNotice username "spam".data) ∈
      handle_message ChatType.group text username userId oracle outcome ∧
    "spam".data <:+: banNotice username "spam".data ∧
    countGeminiCalls
      (handle_message ChatType.group text username userId oracle outcome)
      = 1 := by
  have hmod : check_restricted_words oracle userId username text =
      [Effect.banAttempt userId,
       Effect.replyText (banNotice username "spam".data),
       Effect.logWarning (bannedLog userId "spam".data)] := by
    have hR : RESTRICTED_WORDS = ["spam".data, "scam".data, "hate".data] := rfl
    rw [check_restricted_words, hR, checkWordsLoop, if_pos hspam, hok]
  refine ⟨?_, ?_, ?_, ?_⟩
  · simp [handle_message, isGroupChat, hmod]
  · simp [handle_message, isGroupChat, hmod]
  · exact ⟨"🚨 User @".data ++ username ++
      " was removed for using restricted word: '".data, "'".data,
      by simp [banNotice]⟩
  · cases outcome <;>
      simp [handle_message, isGroupChat, hmod, generate_gemini_response,
        countGeminiCalls, isGeminiEffect]

/-- C2 witness: the amended scenario at the concrete group message "spam"
with a succeeding ban call and a successful AI call. -/
theorem c2_spam_scenario_witness :
    Effect.banAttempt 7 ∈
      handle_message ChatType.group "spam".data "bob".data 7
        (fun _ => TryOutcome.ok) (GeminiOutcome.ok "hi".data) ∧
    Effect.replyText (banNotice "bob".data "spam".data) ∈
      handle_message ChatType.group "spam".data "bob".data 7
        (fun _ => TryOutcome.ok) (GeminiOutcome.ok "hi".data) ∧
    "spam".data <:+: banNotice "bob".data "spam".data ∧
    countGeminiCalls (handle_message ChatType.group "spam".data "bob".data 7
      (fun _ => TryOutcome.ok) (GeminiOutcome.ok "hi".data)) = 1 :=
  c2_spam_scenario "spam".data "bob".data 7 (fun _ => TryOutcome.ok)
    (GeminiOutcome.ok "hi".data) (by decide) rfl

/-! Claim C9 — backend failures are caught and converted to the generic
apology. -/

/-- C9: for every prompt and every raised backend exception (timeout,
authentication, quota, malformed response — the code's `except Exception`
catches them all), `generate_gemini_response` returns normally with the
fixed generic apology message as the user-facing reply and logs the error
with its cause; since the embedding is a total function, no such error
propagates out of the message-handling unit. -/
theorem c9_generic_error (prompt e : List Char) :
    generate_gemini_response prompt (GeminiOutcome.exn e) =
      (errorReply,
       [Effect.geminiCall prompt, Effect.logError (geminiErrLog e)]) :=
  rfl

/-! Claim C3 — timeout handling of the Response Generator. -/

/-- C3 counterexample: when the backend call fails with a timeout
exception, the user receives `errorReply` — exactly the same message as
for a non-timeout failure such as an authentication error.  There is no
timeout-specific message distinct from the generic failure message
(bot.py line 117 calls `generate_content_async` with no timeout and line
121 is the only failure reply), refuting the claim. -/
theorem c3_counterexample :
    (generate_gemini_response "hello".data
      (GeminiOutcome.exn "DeadlineExceeded: request timed out".data)).fst =
      errorReply ∧
    (generate_gemini_response "hello".data
      (GeminiOutcome.exn "PermissionDenied: invalid API key".data)).fst =
      errorReply ∧
    countAppends ((generate_gemini_response "hello".data
      (GeminiOutcome.exn "DeadlineExceeded: request timed out".data)).snd)
      = 0 := by
  decide

/-- C3 (amended): the Response Generator enforces no time bound of its
own; a backend timeout surfaces only as a raised exception and is then
handled exactly like every other failure — the user receives the single
generic failure message (there is no distinct timeout message), and no
"model" Turn is appended to any history (bot.py keeps none). -/
theorem c3_no_timeout_path (prompt e1 e2 : List Char) :
    (generate_gemini_response prompt (GeminiOutcome.exn e1)).fst =
      errorReply ∧
    (generate_gemini_response prompt (GeminiOutcome.exn e1)).fst =
      (generate_gemini_response prompt (GeminiOutcome.exn e2)).fst ∧
    countAppends
      ((generate_gemini_response prompt (GeminiOutcome.exn e1)).snd) = 0 := by
  refine ⟨rfl, rfl, ?_⟩
  simp [generate_gemini_response, countAppends, isAppendEffect]

/-! Claim C4 — reply chunking. -/

/-- In a direct chat with a successful AI call, the outbound messages of
`handle_message` are exactly the one full reply string. -/
lemma emittedReplies_private_ok (text username : List Char) (userId : Nat)
    (oracle : Nat → TryOutcome) (r : List Char) :
    emittedReplies (handle_message ChatType.privateChat text username
      userId oracle (GeminiOutcome.ok r)) = [r] := by
  simp [handle_message, isGroupChat, generate_gemini_response,
    emittedReplies]

/-- C4 counterexample: for a successful AI reply of length 4001 in a
direct chat, `handle_message` emits exactly one outbound message of
length 4001 — not the claimed ceil(4001/4000) = 2 chunks of length at
most 4000 (bot.py line 89 sends the whole reply in a single `reply_text`
call; no splitting code exists). -/
theorem c4_counterexample :
    (emittedReplies (handle_message ChatType.privateChat "hi".data
      "bob".data 7 (fun _ => TryOutcome.ok)
      (GeminiOutcome.ok (List.replicate 4001 'a')))).map List.length
      = [4001] ∧
    ¬ (emittedReplies (handle_message ChatType.privateChat "hi".data
      "bob".data 7 (fun _ => TryOutcome.ok)
      (GeminiOutcome.ok (List.replicate 4001 'a')))).length
      = (4001 + 4000 - 1) / 4000 := by
  rw [emittedReplies_private_ok]
  constructor
  · simp only [List.map_cons, List.map_nil, List.length_replicate]
  · simp only [List.length_cons, List.length_nil]
    decide

/-- C4 (amended): for every reply string, `handle_message` in a direct
chat emits the reply as exactly one outbound message containing the full
text — trivially lossless and ordered, but with no chunk-length bound
enforced and never more than one chunk, whatever the reply length. -/
theorem c4_dispatch_single (text username : List Char) (userId : Nat)
    (oracle : Nat → TryOutcome) (outcome : GeminiOutcome) :
    emittedReplies (handle_message ChatType.privateChat text username
      userId oracle outcome) =
      [(generate_gemini_response text outcome).fst] ∧
    (emittedReplies (handle_message ChatType.privateChat text username
      userId oracle outcome)).flatten =
      (generate_gemini_response text outcome).fst := by
  cases outcome <;>
    simp [handle_message, isGroupChat, generate_gemini_response,
      emittedReplies]

/-! Claim C5 — history around a successful exchange. -/

/-- C5 counterexample: the spec's own scenario — user sends "hello" in a
direct chat, the AI call succeeds — appends ZERO Turns, not two: bot.py
maintains no history store at all (no append ever occurs in
`handle_message` or `generate_gemini_response`). -/
theorem c5_counterexample :
    countAppends (handle_message ChatType.privateChat "hello".data
      "alice".data 1 (fun _ => TryOutcome.ok)
      (GeminiOutcome.ok "Hi! How can I help?".data)) = 0 ∧
    ¬ countAppends (handle_message ChatType.privateChat "hello".data
      "alice".data 1 (fun _ => TryOutcome.ok)
      (GeminiOutcome.ok "Hi! How can I help?".data)) = 2 := by
  decide

/-- C5 (amended): bot.py keeps no conversation history: handling any
message — any chat type, any moderation outcome, success or failure of
the AI call — appends no Turn to any history store, and the AI backend is
invoked with only the current message text as the prompt. -/
theorem c5_no_history (chatType : ChatType) (text username : List Char)
    (userId : Nat) (oracle : Nat → TryOutcome) (outcome : GeminiOutcome) :
    countAppends (handle_message chatType text username userId oracle
      outcome) = 0 ∧
    Effect.geminiCall text ∈
      handle_message chatType text username userId oracle outcome := by
  have hca := (checkWordsLoop_no_gemini_no_appends oracle userId username
    (text.map Char.toLower) RESTRICTED_WORDS 0).2
  constructor
  · cases chatType <;> cases outcome <;>
      simp_all [handle_message, isGroupChat, check_restricted_words,
        generate_gemini_response, countAppends, isAppendEffect]
  · cases chatType <;> cases outcome <;>
      simp [handle_message, isGroupChat, generate_gemini_response]

/-! Claim C6 — zero-argument mode command. -/

set_option maxRecDepth 4096 in
/-- C6 counterexample: after successfully setting the mode to "casual"
(which IS stored in the chat data), a zero-argument `/mode` invocation
still replies with the fixed text whose first line reads "Current
response mode: Standard" — the reply is the same for every stored mode,
so the command does not report the changed mode (gemini_v3.py lines
142–149 hardcode the text and never read `chat_data['response_mode']`). -/
theorem c6_counterexample :
    ((mode_command ["casual".data] ⟨none⟩).fst).response_mode =
      some "casual".data ∧
    (mode_command [] (mode_command ["casual".data] ⟨none⟩).fst).snd =
      modeZeroArgReply ∧
    (mode_command [] ⟨none⟩).snd = modeZeroArgReply ∧
    "Current response mode: Standard\n".data <+: modeZeroArgReply := by
  decide

/-- C6 (amended): a zero-argument mode invocation always replies with the
fixed `modeZeroArgReply` text — reporting mode "Standard" and the full
enumerated option list — regardless of the ChatSession's stored mode; in
particular, after any mode change the zero-argument reply is unchanged. -/
theorem c6_mode_zero_arg (cd : ChatData) (a : List Char) :
    (mode_command [] cd).snd = modeZeroArgReply ∧
    (mode_command [] (mode_command [a] cd).fst).snd = modeZeroArgReply := by
  constructor
  · rfl
  · by_cases h : a.map Char.toLower ∈ modeList <;>
      simp [mode_command, h]

/-! Claim C7 — one-argument mode command. -/

/-- C7: invoking the mode command with one argument that is not a
recognized mode (after lowercasing) leaves the stored mode unchanged and
replies with the invalid-mode error; invoking it with a recognized mode
name in any letter case stores the canonical lowercase form and confirms. -/
theorem c7_mode_set (cd : ChatData) (a : List Char)
    (rest : List (List Char)) :
    (a.map Char.toLower ∈ modeList →
      mode_command (a :: rest) cd =
        ({ cd with response_mode := some (a.map Char.toLower) },
         modeConfirmMsg (a.map Char.toLower))) ∧
    (a.map Char.toLower ∉ modeList →
      mode_command (a :: rest) cd = (cd, invalidModeMsg)) := by
  constructor
  · intro h
    simp [mode_command, h]
  · intro h
    simp [mode_command, h]

/-- C7 witness: "CaSuAl" (mixed case) is stored as "casual" and
confirmed; "fancy" is rejected and leaves the stored mode unchanged. -/
theorem c7_mode_set_witness :
    mode_command ["CaSuAl".data] ⟨none⟩ =
      (⟨some "casual".data⟩, modeConfirmMsg "casual".data) ∧
    mode_command ["fancy".data] ⟨some "casual".data⟩ =
      (⟨some "casual".data⟩, invalidModeMsg) := by
  constructor
  · exact (c7_mode_set ⟨none⟩ "CaSuAl".data []).1 (by decide)
  · exact (c7_mode_set ⟨some "casual".data⟩ "fancy".data []).2 (by decide)

/-! Claim C10 — gemini_v3.py's main cannot start. -/

/-- C10: `main` of gemini_v3.py registers the handlers `reset_context`
and `handle_message`, neither of which is bound anywhere in the file; the
first of them is reached at the `/reset` registration, so startup raises
`NameError: reset_context` and the `run_polling` receive loop is never
reached — the /reset command and free-text handling of this variant are
unreachable. -/
theorem c10_main_name_error :
    gemini_v3_main = StartupResult.nameError "reset_context".data ∧
    gemini_v3_main ≠ StartupResult.polling ∧
    "reset_context".data ∉ gemini_v3_defined_names ∧
    "handle_message".data ∉ gemini_v3_defined_names := by
  decide
